import Mathlib

/-!
Verification development for the zombie AI decision and movement core of the
suroi-zombie-mode repository.

Embedding conventions:
- Positions and times are exact rationals. The TypeScript code uses IEEE
  doubles; every property checked here is about comparisons, branch
  structure and exact linear arithmetic, which the rational embedding
  captures faithfully.
- Geometry.distance(a, b) is the Euclidean distance, an irrational square
  root in general. Wherever the source only COMPARES a distance against a
  nonnegative threshold r, we embed the comparison at the squared level
  (distSq a b <= r * r), which is exact because the square root is
  monotone. Wherever the source uses the scalar length itself in
  arithmetic (Vec.len, Vec.normalize), the embedding takes a length
  oracle len : Vec -> Rat as a parameter standing for Math.sqrt of the
  squared length; theorems that depend on its value carry explicit
  correctness hypotheses (len v > 0, len v * len v = lenSq v) and concrete
  instantiations use vectors whose length is rational.
- Randomness (randomFloat, pickRandomInArray, Vec.fromPolar of a random
  angle) is parametrized by explicit inputs: a random polar offset is
  passed as the resulting vector, a random array pick as an index.
-/

namespace SuroiZombie

/-- Two dimensional vector over the rationals, embedding the Vector type of
common/utils/vector. -/
structure Vec where
  x : ℚ
  y : ℚ
deriving DecidableEq, Repr

def Vec.add (a b : Vec) : Vec := ⟨a.x + b.x, a.y + b.y⟩

def Vec.sub (a b : Vec) : Vec := ⟨a.x - b.x, a.y - b.y⟩

def Vec.scale (k : ℚ) (a : Vec) : Vec := ⟨k * a.x, k * a.y⟩

/-- Squared Euclidean length of a vector. -/
def Vec.lenSq (a : Vec) : ℚ := a.x ^ 2 + a.y ^ 2

/-- Squared Euclidean distance; Geometry.distance is its square root. -/
def Vec.distSq (a b : Vec) : ℚ := (a.x - b.x) ^ 2 + (a.y - b.y) ^ 2

/-- Embeds Vec.lerp(start, end, t) = start * (1 - t) + end * t. -/
def Vec.lerp (a b : Vec) (t : ℚ) : Vec := Vec.add (Vec.scale (1 - t) a) (Vec.scale t b)

/-- Embeds Vec.rotate(v, pi / 2) = (-y, x), the only rotation the AI core
uses (findPathToTarget); at a quarter turn the cosine and sine are 0 and 1
so the result is exact. -/
def Vec.rotQuarter (a : Vec) : Vec := ⟨-a.y, a.x⟩

/-- Embeds the comparison Geometry.distance(a, b) <= r for a nonnegative
threshold r, squared on both sides (exact: sqrt is monotone). -/
def distLE (a b : Vec) (r : ℚ) : Bool := decide (Vec.distSq a b ≤ r * r)

/-- Embeds the comparison Geometry.distance(a, b) < r for a nonnegative
threshold r, squared on both sides (exact: sqrt is monotone). -/
def distLT (a b : Vec) (r : ℚ) : Bool := decide (Vec.distSq a b < r * r)

/-- Embeds Vec.normalize given the length oracle: scale by the reciprocal
of the length. In the source a zero length yields NaN; theorems that touch
this case carry a positivity hypothesis on the oracle value. -/
def nrmW (len : Vec → ℚ) (v : Vec) : Vec := Vec.scale (1 / len v) v

/-! Behavior constants of the AI core, from zombieTypes.ts
(ZombieAIConstants). -/

namespace ZombieAIConstants

def pathfindingUpdateInterval : ℚ := 500

def targetSwitchCooldown : ℚ := 2000

def wanderRadius : ℚ := 20

def stuckThreshold : ℚ := 1

def stuckTimeout : ℚ := 3000

def groupRadius : ℚ := 10

def fleeHealthThreshold : ℚ := 1 / 5

def aggroTimeout : ℚ := 10000

def separationDistance : ℚ := 7 / 2

def avoidanceForce : ℚ := 4 / 5

def circlingRadius : ℚ := 4

def circlingSpeed : ℚ := 3 / 10

def personalSpace : ℚ := 2

end ZombieAIConstants

/-!
LOD scheduler. The callers in src (zombieManager.ts reads
ZombieAIConstants.lodDistanceThresholds and lodUpdateIntervals,
zombiePlayer.ts delegates getLODLevel to the AI object) and the repository
documentation reference an LOD-extended ZombieAI whose implementation file
is not present under src; the functions below are therefore modelled from
the specification.
-/

/-- Modelled from the spec: the LOD distance classification of section 4.1
(the ZombieAI.updateLODLevel / getLODLevel pair absent from src). The
cached distance to the nearest player is none when no player is present,
which the source represents as Infinity. Thresholds: high 25, medium 50,
low 75. -/
def getLODLevel : Option ℚ → ℕ
  | none => 3
  | some d => if d ≤ 25 then 0 else if d ≤ 50 then 1 else if d ≤ 75 then 2 else 3

/-- Modelled from the spec: ZombieAI.getPathfindingInterval, absent from
src. Pathfinding interval per LOD level in milliseconds: High 500,
Medium 1000, Low 2000, Minimal 5000. -/
def getPathfindingInterval : ℕ → ℚ
  | 0 => 500
  | 1 => 1000
  | 2 => 2000
  | _ => 5000

/-- Modelled from the spec: ZombieAI.shouldUpdateAIState, absent from src.
High and Medium always update; Low updates when an independent uniform
draw in the unit interval falls below 0.7, Minimal below 0.3, so for a
uniform draw the update probability is 0.7 and 0.3 per tick. -/
def shouldUpdateAIState (lod : ℕ) (draw : ℚ) : Bool :=
  if lod ≤ 1 then true
  else if lod = 2 then decide (draw < 7 / 10)
  else decide (draw < 3 / 10)

/-- Modelled from the spec: the pathfinding gate of the LOD-extended update
loop, run over a trace of ticks. Each tick carries its wall-clock time and
the LOD level in effect; pathfinding fires when the elapsed time since the
last fire exceeds the interval of the current level, and the fire
timestamp is recorded. Returns the subtrace of ticks at which pathfinding
ran. -/
def pathRuns (last : ℚ) : List (ℚ × ℕ) → List (ℚ × ℕ)
  | [] => []
  | (t, l) :: rest =>
    if getPathfindingInterval l < t - last then (t, l) :: pathRuns t rest
    else pathRuns last rest

theorem pathRuns_chain (ticks : List (ℚ × ℕ)) :
    ∀ (last : ℚ) (l0 : ℕ),
      List.Chain (fun a b => getPathfindingInterval b.2 < b.1 - a.1)
        (last, l0) (pathRuns last ticks) := by
  induction ticks with
  | nil => intro last l0; simp [pathRuns]
  | cons hd tl ih =>
    intro last l0
    obtain ⟨t, l⟩ := hd
    unfold pathRuns
    split
    · exact List.Chain.cons (by assumption) (ih t l)
    · exact ih last l0

lemma lod_eq_zero_iff (d : ℚ) : getLODLevel (some d) = 0 ↔ d ≤ 25 := by
  by_cases h1 : d ≤ 25
  · simp [getLODLevel, h1]
  · by_cases h2 : d ≤ 50
    · simp [getLODLevel, h1, h2]
    · by_cases h3 : d ≤ 75 <;> simp [getLODLevel, h1, h2, h3]

lemma lod_eq_one_iff (d : ℚ) : getLODLevel (some d) = 1 ↔ 25 < d ∧ d ≤ 50 := by
  by_cases h1 : d ≤ 25
  · simp [getLODLevel, h1, not_lt.mpr h1]
  · by_cases h2 : d ≤ 50
    · simp [getLODLevel, h1, h2, not_le.mp h1]
    · by_cases h3 : d ≤ 75 <;> simp [getLODLevel, h1, h2, h3]

lemma lod_eq_two_iff (d : ℚ) : getLODLevel (some d) = 2 ↔ 50 < d ∧ d ≤ 75 := by
  by_cases h1 : d ≤ 25
  · have : ¬ 50 < d := not_lt.mpr (h1.trans (by norm_num))
    simp [getLODLevel, h1, this]
  · by_cases h2 : d ≤ 50
    · simp [getLODLevel, h1, h2, not_lt.mpr h2]
    · by_cases h3 : d ≤ 75 <;> simp [getLODLevel, h1, h2, h3, not_le.mp h2]

lemma lod_eq_three_iff (d : ℚ) : getLODLevel (some d) = 3 ↔ 75 < d := by
  by_cases h1 : d ≤ 25
  · have : ¬ 75 < d := not_lt.mpr (h1.trans (by norm_num))
    simp [getLODLevel, h1, this]
  · by_cases h2 : d ≤ 50
    · have : ¬ 75 < d := not_lt.mpr (h2.trans (by norm_num))
      simp [getLODLevel, h1, h2, this]
    · by_cases h3 : d ≤ 75
      · simp [getLODLevel, h1, h2, h3, not_lt.mpr h3]
      · simp [getLODLevel, h1, h2, h3, not_le.mp h3]

lemma lod_mono (d₁ d₂ : ℚ) (h : d₁ ≤ d₂) :
    getLODLevel (some d₁) ≤ getLODLevel (some d₂) := by
  by_cases b1 : d₂ ≤ 25
  · simp [getLODLevel, h.trans b1, b1]
  · by_cases b2 : d₂ ≤ 50
    · by_cases a1 : d₁ ≤ 25 <;>
        simp [getLODLevel, a1, h.trans b2, b1, b2]
    · by_cases b3 : d₂ ≤ 75
      · by_cases a1 : d₁ ≤ 25 <;> by_cases a2 : d₁ ≤ 50 <;>
          simp [getLODLevel, a1, a2, h.trans b3, b1, b2, b3]
      · by_cases a1 : d₁ ≤ 25 <;> by_cases a2 : d₁ ≤ 50 <;>
          by_cases a3 : d₁ ≤ 75 <;>
          simp [getLODLevel, a1, a2, a3, b1, b2, b3]

lemma lod_le_none (d : ℚ) : getLODLevel (some d) ≤ getLODLevel none := by
  by_cases h1 : d ≤ 25 <;> by_cases h2 : d ≤ 50 <;> by_cases h3 : d ≤ 75 <;>
    simp [getLODLevel, h1, h2, h3]

/-- C1: lodLevel is a deterministic function of the cached distance to the
nearest player; it equals 0 exactly on distances up to 25, 1 on distances
in (25, 50], 2 on (50, 75], 3 above 75; absence of a player (infinite
distance) classifies as 3 (Minimal); and the classification is monotone
non-decreasing in the distance and never exceeds the value taken at
infinite distance. -/
theorem claim_C1 :
    getLODLevel none = 3
    ∧ (∀ d : ℚ, (getLODLevel (some d) = 0 ↔ d ≤ 25))
    ∧ (∀ d : ℚ, (getLODLevel (some d) = 1 ↔ 25 < d ∧ d ≤ 50))
    ∧ (∀ d : ℚ, (getLODLevel (some d) = 2 ↔ 50 < d ∧ d ≤ 75))
    ∧ (∀ d : ℚ, (getLODLevel (some d) = 3 ↔ 75 < d))
    ∧ (∀ d₁ d₂ : ℚ, d₁ ≤ d₂ → getLODLevel (some d₁) ≤ getLODLevel (some d₂))
    ∧ (∀ d : ℚ, getLODLevel (some d) ≤ getLODLevel none) :=
  ⟨rfl, lod_eq_zero_iff, lod_eq_one_iff, lod_eq_two_iff, lod_eq_three_iff,
    lod_mono, lod_le_none⟩

/-- Witness for C1: the monotonicity conjunct applied at the concrete
distances 10 and 40, discharging the ordering hypothesis. -/
theorem claim_C1_witness :
    (10 : ℚ) ≤ 40 ∧ getLODLevel (some 10) ≤ getLODLevel (some 40) :=
  ⟨by norm_num, claim_C1.2.2.2.2.2.1 10 40 (by norm_num)⟩

/-- C2: the LOD-gated update loop runs local pathfinding at most once per
the lodLevel-dependent interval (500 ms High, 1000 ms Medium, 2000 ms Low,
5000 ms Minimal): along any trace of ticks, consecutive pathfinding runs
are separated by more than the interval of the level in effect at the
later run, and the first run exceeds the interval since the initial
timestamp. The behavior-state update always fires at High and Medium, and
at Low and Minimal it fires exactly when the per-tick uniform draw falls
below 0.7 and 0.3 respectively, so for a uniform draw it runs with
probability 0.7 and 0.3 per tick. -/
theorem claim_C2 :
    (getPathfindingInterval 0 = 500 ∧ getPathfindingInterval 1 = 1000
      ∧ getPathfindingInterval 2 = 2000 ∧ getPathfindingInterval 3 = 5000)
    ∧ (∀ (last : ℚ) (l0 : ℕ) (ticks : List (ℚ × ℕ)),
        List.Chain (fun a b => getPathfindingInterval b.2 < b.1 - a.1)
          (last, l0) (pathRuns last ticks))
    ∧ (∀ draw : ℚ, shouldUpdateAIState 0 draw = true)
    ∧ (∀ draw : ℚ, shouldUpdateAIState 1 draw = true)
    ∧ (∀ draw : ℚ, (shouldUpdateAIState 2 draw = true ↔ draw < 7 / 10))
    ∧ (∀ draw : ℚ, (shouldUpdateAIState 3 draw = true ↔ draw < 3 / 10)) := by
  refine ⟨⟨rfl, rfl, rfl, rfl⟩, ?_, ?_, ?_, ?_, ?_⟩
  · intro last l0 ticks; exact pathRuns_chain ticks last l0
  · intro draw; simp [shouldUpdateAIState]
  · intro draw; simp [shouldUpdateAIState]
  · intro draw; simp [shouldUpdateAIState]
  · intro draw; simp [shouldUpdateAIState]

/-!
LOD configuration validation, from zombieManager.ts
(ZombieManager.validateLODConfiguration, called first in the constructor).
-/

/-- LOD distance thresholds record (the shape of
ZombieAIConstants.lodDistanceThresholds read by the manager). -/
structure LODThresholds where
  high : ℚ
  medium : ℚ
  low : ℚ
  minimal : ℚ
deriving DecidableEq, Repr

/-- LOD update intervals record (the shape of
ZombieAIConstants.lodUpdateIntervals read by the manager). -/
structure LODIntervals where
  high : ℚ
  medium : ℚ
  low : ℚ
  minimal : ℚ
deriving DecidableEq, Repr

/-- Embeds ZombieManager.validateLODConfiguration: throws when the
distance thresholds are not strictly increasing or any update interval is
not positive, mirroring the two guard conditions of the source. -/
def validateLODConfiguration (t : LODThresholds) (i : LODIntervals) :
    Except String Unit :=
  if t.medium ≤ t.high ∨ t.low ≤ t.medium ∨ t.minimal ≤ t.low then
    .error "LOD distance thresholds must be strictly increasing: high < medium < low < minimal"
  else if i.high ≤ 0 ∨ i.medium ≤ 0 ∨ i.low ≤ 0 ∨ i.minimal ≤ 0 then
    .error "LOD update intervals must be positive values"
  else .ok ()

/-- The validated zombie manager configuration. -/
structure ZombieManagerConfig where
  thresholds : LODThresholds
  intervals : LODIntervals
deriving DecidableEq, Repr

/-- Embeds the ZombieManager constructor: validateLODConfiguration runs
first, so an invalid configuration aborts construction (throws) and no
manager (hence no agent update schedule) ever exists. -/
def mkZombieManager (t : LODThresholds) (i : LODIntervals) :
    Except String ZombieManagerConfig :=
  match validateLODConfiguration t i with
  | .error e => .error e
  | .ok _ => .ok ⟨t, i⟩

/-- C3: constructing the zombie manager validates at startup that the LOD
distance thresholds are strictly increasing and every LOD update interval
is positive: construction succeeds exactly when high < medium < low <
minimal and all four intervals are positive, and the non-increasing
example thresholds high 50, medium 25 abort construction with the
configuration error, before any manager exists. -/
theorem claim_C3 :
    (∀ (t : LODThresholds) (i : LODIntervals),
      ((mkZombieManager t i).isOk = true ↔
        (t.high < t.medium ∧ t.medium < t.low ∧ t.low < t.minimal
          ∧ 0 < i.high ∧ 0 < i.medium ∧ 0 < i.low ∧ 0 < i.minimal)))
    ∧ mkZombieManager ⟨50, 25, 75, 100⟩ ⟨500, 1000, 2000, 5000⟩ =
        .error "LOD distance thresholds must be strictly increasing: high < medium < low < minimal" := by
  constructor
  · intro t i
    simp only [mkZombieManager, validateLODConfiguration]
    by_cases h1 : t.medium ≤ t.high ∨ t.low ≤ t.medium ∨ t.minimal ≤ t.low
    · simp only [if_pos h1, Except.isOk, Except.toBool]
      push_neg at h1
      constructor
      · intro h; cases h
      · rintro ⟨a, b, c, _⟩
        rcases h1 with h | h | h
        · exact absurd a (not_lt.mpr h)
        all_goals simp_all [not_lt.mpr]
    · by_cases h2 : i.high ≤ 0 ∨ i.medium ≤ 0 ∨ i.low ≤ 0 ∨ i.minimal ≤ 0
      · simp only [if_neg h1, if_pos h2, Except.isOk, Except.toBool]
        push_neg at h1
        constructor
        · intro h; cases h
        · rintro ⟨_, _, _, p1, p2, p3, p4⟩
          rcases h2 with h | h | h | h
          · exact absurd p1 (not_lt.mpr h)
          · exact absurd p2 (not_lt.mpr h)
          · exact absurd p3 (not_lt.mpr h)
          · exact absurd p4 (not_lt.mpr h)
      · simp only [if_neg h1, if_neg h2, Except.isOk, Except.toBool]
        push_neg at h1
        push_neg at h2
        simp [h1.1, h1.2.1, h1.2.2, h2.1, h2.2.1, h2.2.2.1, h2.2.2.2]
  · rfl

/-!
Core AI data model and per-tick logic, from zombieAI.ts (class ZombieAI)
and zombiePlayer.ts (range accessors). The environment record collects the
read-only collaborator data the class reaches through this.zombie.game:
the current time, the living non-zombie players (the source loop skips
entries with isZombie or identity with self, so the embedded list is
already the filtered one), the other zombies of the game with the fields
the source reads through their AI objects (position, dead flag, AI state,
AI target), and the spatial obstacle query of findPathToTarget collapsed
to its result (whether a blocking obstacle overlaps the probe box around
a point).
-/

/-- AI behavior states, from the ZombieAIState enum. -/
inductive ZombieAIState where
  | Idle
  | Wandering
  | Hunting
  | Attacking
  | Fleeing
  | Grouping
deriving DecidableEq, Repr

/-- A living non-zombie player as the AI sees it: an identity and a
position. -/
structure Player where
  id : ℕ
  pos : Vec
deriving DecidableEq, Repr

/-- The static zombie-type fields the AI core reads, from
ZombieTypeDefinition in zombieTypes.ts. -/
structure ZombieTypeDef where
  idString : String
  attackRange : ℚ
  detectionRange : ℚ
  packBehavior : Bool
deriving DecidableEq, Repr

/-- Another zombie of the game as pack coordination sees it: position,
dead flag, and the state and target of its AI object (the source reads
them directly through (zombie as any).ai). -/
structure ZombieNb where
  pos : Vec
  dead : Bool
  aiState : ZombieAIState
  aiTarget : Option Player
deriving DecidableEq, Repr

/-- Read-only collaborator data for one tick. -/
structure Env where
  now : ℚ
  players : List Player
  zombies : List ZombieNb
  obstacleNear : Vec → Bool

/-- The owning zombie entity fields the AI reads, from ZombiePlayer. -/
structure ZombieSelf where
  pos : Vec
  typ : ZombieTypeDef
  evolutionMultiplier : ℚ
  health : ℚ
  maxHealth : ℚ
deriving DecidableEq, Repr

/-- Embeds ZombiePlayer.getDetectionRange: the base detection range scaled
by the evolution multiplier. -/
def ZombieSelf.getDetectionRange (z : ZombieSelf) : ℚ :=
  z.typ.detectionRange * z.evolutionMultiplier

/-- Embeds ZombiePlayer.getAttackRange: the base attack range, not scaled
by the evolution multiplier. -/
def ZombieSelf.getAttackRange (z : ZombieSelf) : ℚ :=
  z.typ.attackRange

/-- The mutable private fields of class ZombieAI. -/
structure ZombieAIRec where
  state : ZombieAIState
  target : Option Player
  targetPosition : Option Vec
  intermediateTarget : Option Vec
  lastPathUpdate : ℚ
  lastTargetSwitch : ℚ
  wanderTarget : Option Vec
  stuckPosition : Option Vec
  stuckTime : ℚ
  circlingStartTime : ℚ
  aggroUntil : ℚ
  lastPosition : Vec
deriving DecidableEq, Repr

/-- Random inputs one tick can consume, parametrizing randomFloat and
pickRandomInArray: stuckW, stateW and groupW are the random polar offsets
(Vec.fromPolar of a random angle and a random radius in 5..wanderRadius)
consumed by the setWanderTarget call sites in checkIfStuck, updateState
and findGroupTarget; groupIdx is the pickRandomInArray index of
findGroupTarget; noise is the polar noise vector of radius 0.1 added in
updatePathfinding. -/
structure Rnd where
  stuckW : Vec
  stateW : Vec
  groupW : Vec
  groupIdx : ℕ
  noise : Vec
deriving DecidableEq, Repr

/-- Movement intent booleans, from interface AIMovement. -/
structure AIMovement where
  up : Bool
  down : Bool
  left : Bool
  right : Bool
deriving DecidableEq, Repr

/-- The getCurrentState result, from interface AIState. -/
structure AIState where
  movement : AIMovement
  target : Option Vec
  shouldAttack : Bool
  currentState : ZombieAIState
deriving DecidableEq, Repr

/-- Embeds the findNearestPlayer scan loop; the running minimum keeps the
squared distance, which orders pairs exactly as the source Euclidean
distance does. The first strictly smaller entry wins, as in the source. -/
def findNearestAux (zpos : Vec) : Option (Player × ℚ) → List Player → Option Player
  | best, [] => best.map Prod.fst
  | best, p :: rest =>
    let d := Vec.distSq zpos p.pos
    match best with
    | none => findNearestAux zpos (some (p, d)) rest
    | some (q, dq) =>
      if d < dq then findNearestAux zpos (some (p, d)) rest
      else findNearestAux zpos (some (q, dq)) rest

/-- Embeds ZombieAI.findNearestPlayer over the pre-filtered living
non-zombie players. -/
def findNearestPlayer (zpos : Vec) (players : List Player) : Option Player :=
  findNearestAux zpos none players

/-- Embeds ZombieAI.canDetectPlayer: distance to the player at most the
evolution-scaled detection range. -/
def canDetectPlayer (z : ZombieSelf) (p : Player) : Bool :=
  distLE z.pos p.pos z.getDetectionRange

/-- Embeds ZombieAI.isInAttackRange: distance to the player at most the
unscaled attack range. -/
def isInAttackRange (z : ZombieSelf) (p : Player) : Bool :=
  distLE z.pos p.pos z.getAttackRange

/-- Embeds ZombieAI.reachedTarget: within 2 units of the point. -/
def reachedTarget (zpos t : Vec) : Bool := distLT zpos t 2

/-- Embeds ZombieAI.setState: assigns the state and the (possibly absent)
target; when a target is given, also records its position as the movement
goal and stamps the target-switch time. -/
def setState (env : Env) (s : ZombieAIRec) (newState : ZombieAIState)
    (target : Option Player) : ZombieAIRec :=
  let s1 := { s with state := newState, target := target }
  match target with
  | some t => { s1 with targetPosition := some t.pos, lastTargetSwitch := env.now }
  | none => s1

/-- Embeds ZombieAI.setWanderTarget with the random polar offset passed
explicitly: the wander target is the current position plus the offset, and
it becomes the movement goal. -/
def setWanderTarget (zpos rndOffset : Vec) (s : ZombieAIRec) : ZombieAIRec :=
  let w := Vec.add zpos rndOffset
  { s with wanderTarget := some w, targetPosition := some w }

/-- Embeds ZombieAI.findGroupTarget: move toward a randomly picked live
zombie within groupRadius, or pick a wander target when none exists. -/
def findGroupTarget (env : Env) (z : ZombieSelf) (rnd : Rnd)
    (s : ZombieAIRec) : ZombieAIRec :=
  let nearby := env.zombies.filter
    (fun n => !n.dead && distLE z.pos n.pos ZombieAIConstants.groupRadius)
  match nearby with
  | [] => setWanderTarget z.pos rnd.groupW s
  | _ :: _ =>
    let pick := nearby.getD (rnd.groupIdx % nearby.length) ⟨⟨0, 0⟩, false, .Idle, none⟩
    { s with targetPosition := some pick.pos }

/-- Embeds ZombieAI.checkIfStuck: when frame-to-frame displacement is
below stuckThreshold, start or escalate the stuck timer, recovering with a
new wander target after stuckTimeout; any larger displacement clears the
timer. -/
def checkIfStuck (env : Env) (z : ZombieSelf) (rnd : Rnd)
    (s : ZombieAIRec) : ZombieAIRec :=
  if distLT z.pos s.lastPosition ZombieAIConstants.stuckThreshold then
    match s.stuckPosition with
    | none => { s with stuckPosition := some z.pos, stuckTime := env.now }
    | some _ =>
      if ZombieAIConstants.stuckTimeout < env.now - s.stuckTime then
        { setWanderTarget z.pos rnd.stuckW s with stuckPosition := none }
      else s
  else { s with stuckPosition := none }

/-- Embeds ZombieAI.getCirclingDirection: a 30 percent approach / 70
percent perpendicular orbit blend, normalized; a zero-length offset to the
target yields the unit x vector. -/
def getCirclingDirection (len : Vec → ℚ) (zpos targetPos : Vec) : Vec :=
  let toTarget := Vec.sub targetPos zpos
  if len toTarget = 0 then ⟨1, 0⟩
  else
    let perpendicular : Vec := ⟨-toTarget.y, toTarget.x⟩
    let normalizedPerp := nrmW len perpendicular
    let approachDirection := nrmW len toTarget
    nrmW len (Vec.add (Vec.scale (3 / 10) approachDirection)
      (Vec.scale (7 / 10) normalizedPerp))

/-- Embeds ZombieAI.getTacticalAttackPosition: inside separationDistance
the circling direction is used in place of a position; otherwise the goal
is offset from the target by 0.8 times the attack range back along the
approach line. -/
def getTacticalAttackPosition (len : Vec → ℚ) (z : ZombieSelf)
    (target : Player) : Vec :=
  if distLT z.pos target.pos ZombieAIConstants.separationDistance then
    getCirclingDirection len z.pos target.pos
  else
    let optimalDistance := z.getAttackRange * (4 / 5)
    let direction := Vec.sub target.pos z.pos
    if len direction = 0 then Vec.add z.pos ⟨1, 0⟩
    else Vec.add target.pos (Vec.scale (-optimalDistance) (nrmW len direction))

/-- Embeds ZombieAI.findPathToTarget: return the target when within 0.5
units; otherwise probe up to 5 units ahead, deflect by a half-weighted
perpendicular blend stepping 3 units when the probe box hits a blocking
obstacle, else step up to 3 units straight. The source returns a vector on
every path. -/
def findPathToTarget (env : Env) (len : Vec → ℚ) (zpos target : Vec) : Vec :=
  let direction := Vec.sub target zpos
  let distance := len direction
  if distance < 1 / 2 then target
  else
    let normalized := Vec.scale (1 / distance) direction
    let checkDistance := min distance 5
    let checkPosition := Vec.add zpos (Vec.scale checkDistance normalized)
    if env.obstacleNear checkPosition then
      let perpendicular := Vec.rotQuarter normalized
      let avoidanceDirection := Vec.add normalized (Vec.scale (1 / 2) perpendicular)
      Vec.add zpos (Vec.scale 3 (nrmW len avoidanceDirection))
    else Vec.add zpos (Vec.scale (min distance 3) normalized)

/-- Embeds ZombieAI.coordinateWithPack: pack agents scan live same-faction
zombies within groupRadius and, when this agent has no target or its last
target switch was over 1000 ms ago, adopt the target of the first neighbor
whose AI is Hunting with a target, transitioning to Hunting. -/
def coordinateWithPack (env : Env) (z : ZombieSelf) (s : ZombieAIRec) : ZombieAIRec :=
  if !z.typ.packBehavior then s
  else
    let nearby := env.zombies.filter
      (fun n => !n.dead && distLE z.pos n.pos ZombieAIConstants.groupRadius)
    if nearby.isEmpty then s
    else if s.target.isNone || decide (1000 < env.now - s.lastTargetSwitch) then
      match nearby.find? (fun n => n.aiTarget.isSome && decide (n.aiState = .Hunting)) with
      | some n => setState env s .Hunting n.aiTarget
      | none => s
    else s

/-- Embeds ZombieAI.updatePathfinding: with no movement goal, return at
once; otherwise store the local path waypoint, let pack agents coordinate,
and (re-reading the possibly pack-updated goal as the source does) compute
the noisy direction, which only writes a fallback waypoint when none is
present -- the waypoint was just written, so the fallback branch is dead
but embedded faithfully. -/
def updatePathfinding (env : Env) (z : ZombieSelf) (rnd : Rnd)
    (len : Vec → ℚ) (s : ZombieAIRec) : ZombieAIRec :=
  match s.targetPosition with
  | none => s
  | some tp =>
    let pathTarget := findPathToTarget env len z.pos tp
    let s1 := { s with intermediateTarget := some pathTarget }
    let s2 := if z.typ.packBehavior then coordinateWithPack env z s1 else s1
    let tp2 := s2.targetPosition.getD tp
    let direction := Vec.sub tp2 z.pos
    let distance := len direction
    if distance < 1 / 10 then s2
    else
      match s2.intermediateTarget with
      | some _ => s2
      | none =>
        let normalized := Vec.scale (1 / distance) direction
        let noisyDirection := Vec.add normalized rnd.noise
        let fallback := Vec.add z.pos (Vec.scale 2 noisyDirection)
        { s2 with intermediateTarget := some fallback }

/-- Embeds ZombieAI.updateState, the behavior state machine switch. -/
def updateState (env : Env) (z : ZombieSelf) (rnd : Rnd) (len : Vec → ℚ)
    (s : ZombieAIRec) : ZombieAIRec :=
  let nearestPlayer := findNearestPlayer z.pos env.players
  let isAggro := decide (env.now < s.aggroUntil)
  match s.state with
  | .Idle =>
    match nearestPlayer with
    | some p =>
      if canDetectPlayer z p then setState env s .Hunting (some p)
      else if z.typ.packBehavior then setState env s .Grouping none
      else setState env s .Wandering none
    | none =>
      if z.typ.packBehavior then setState env s .Grouping none
      else setState env s .Wandering none
  | .Wandering =>
    match nearestPlayer with
    | some p =>
      if canDetectPlayer z p then setState env s .Hunting (some p)
      else
        match s.wanderTarget with
        | none => setWanderTarget z.pos rnd.stateW s
        | some w =>
          if reachedTarget z.pos w then setWanderTarget z.pos rnd.stateW s else s
    | none =>
      match s.wanderTarget with
      | none => setWanderTarget z.pos rnd.stateW s
      | some w =>
        if reachedTarget z.pos w then setWanderTarget z.pos rnd.stateW s else s
  | .Hunting =>
    match nearestPlayer with
    | none => setState env s (if isAggro then .Wandering else .Idle) none
    | some p =>
      if !canDetectPlayer z p then
        setState env s (if isAggro then .Wandering else .Idle) none
      else if isInAttackRange z p then setState env s .Attacking (some p)
      else { s with target := some p, targetPosition := some p.pos }
  | .Attacking =>
    match nearestPlayer with
    | none => setState env s .Hunting none
    | some p =>
      if !isInAttackRange z p then setState env s .Hunting (some p)
      else { s with target := some p,
                    targetPosition := some (getTacticalAttackPosition len z p) }
  | .Fleeing =>
    if ZombieAIConstants.fleeHealthThreshold < z.health / z.maxHealth then
      setState env s .Idle none
    else s
  | .Grouping =>
    match nearestPlayer with
    | some p =>
      if canDetectPlayer z p then setState env s .Hunting (some p)
      else findGroupTarget env z rnd s
    | none => findGroupTarget env z rnd s

/-- Embeds ZombieAI.update, the per-tick entry point: stuck check, then
the 500 ms gated pathfinding update with its timestamp, then the state
machine, then the last-position record. -/
def update (env : Env) (z : ZombieSelf) (rnd : Rnd) (len : Vec → ℚ)
    (s : ZombieAIRec) : ZombieAIRec :=
  let s1 := checkIfStuck env z rnd s
  let s2 :=
    if ZombieAIConstants.pathfindingUpdateInterval < env.now - s1.lastPathUpdate then
      { updatePathfinding env z rnd len s1 with lastPathUpdate := env.now }
    else s1
  let s3 := updateState env z rnd len s2
  { s3 with lastPosition := z.pos }

/-- Embeds ZombieAI.onTakeDamage: refresh the aggro window, rebind to the
attacker as Hunting target unless a recent switch forbids it, and when the
health ratio is below fleeHealthThreshold transition to Fleeing with the
movement goal 20 units from the current position directly away from the
damage source. -/
def onTakeDamage (env : Env) (z : ZombieSelf) (len : Vec → ℚ)
    (source : Player) (s : ZombieAIRec) : ZombieAIRec :=
  let s1 := { s with aggroUntil := env.now + ZombieAIConstants.aggroTimeout }
  let s2 :=
    if s1.target.isNone
        || decide (ZombieAIConstants.targetSwitchCooldown < env.now - s1.lastTargetSwitch) then
      setState env s1 .Hunting (some source)
    else s1
  if z.health / z.maxHealth < ZombieAIConstants.fleeHealthThreshold then
    let s3 := setState env s2 .Fleeing none
    let fleeDirection := Vec.sub z.pos source.pos
    let fleePos := Vec.add z.pos (Vec.scale 20 (nrmW len fleeDirection))
    { s3 with targetPosition := some fleePos }
  else s2

/-- Embeds ZombieAI.onEvolution: extend the aggro window proportionally to
the evolution multiplier. -/
def onEvolution (env : Env) (mult : ℚ) (s : ZombieAIRec) : ZombieAIRec :=
  { s with aggroUntil := env.now + ZombieAIConstants.aggroTimeout * mult }

/-- Embeds ZombieAI.getNearbyEntities: players and live zombies within 1.5
times the larger of separationDistance and personalSpace. -/
def getNearbyEntities (env : Env) (z : ZombieSelf) : List Player × List ZombieNb :=
  let checkRadius := max ZombieAIConstants.separationDistance ZombieAIConstants.personalSpace * (3 / 2)
  (env.players.filter (fun p => distLE z.pos p.pos checkRadius),
    env.zombies.filter (fun n => !n.dead && distLE z.pos n.pos checkRadius))

/-- One iteration of the player-separation loop of
ZombieAI.applyCollisionAvoidance: repulsion away from a close player, and
the circling logic with its 5000 ms timeout escape that resets the timer
and picks a new random wander target. -/
def playerSepStep (env : Env) (z : ZombieSelf) (len : Vec → ℚ) (rndEsc : Vec)
    (acc : Vec × ZombieAIRec) (p : Player) : Vec × ZombieAIRec :=
  let fd := acc.1
  let s := acc.2
  let d := len (Vec.sub z.pos p.pos)
  if d < ZombieAIConstants.separationDistance then
    let separationVector := Vec.sub z.pos p.pos
    let separationForce := ZombieAIConstants.avoidanceForce
      * (ZombieAIConstants.separationDistance - d) / ZombieAIConstants.separationDistance
    let fd1 :=
      if 0 < len separationVector then
        Vec.add fd (Vec.scale separationForce (nrmW len separationVector))
      else fd
    if d < ZombieAIConstants.circlingRadius ∧ s.state = .Attacking then
      let s1 := if s.circlingStartTime = 0 then { s with circlingStartTime := env.now } else s
      if 5000 < env.now - s1.circlingStartTime then
        (fd1, setWanderTarget z.pos rndEsc { s1 with circlingStartTime := 0 })
      else
        (Vec.lerp fd1 (getCirclingDirection len z.pos p.pos) ZombieAIConstants.circlingSpeed, s1)
    else (fd1, { s with circlingStartTime := 0 })
  else acc

/-- One iteration of the zombie-separation loop of
ZombieAI.applyCollisionAvoidance: a weaker repulsion (coefficient 0.5)
away from a close zombie; never touches the AI record. -/
def zombieSepStep (z : ZombieSelf) (len : Vec → ℚ) (fd : Vec) (n : ZombieNb) : Vec :=
  let d := len (Vec.sub z.pos n.pos)
  if d < ZombieAIConstants.personalSpace then
    let separationVector := Vec.sub z.pos n.pos
    let separationForce := (1 / 2) * (ZombieAIConstants.personalSpace - d) / ZombieAIConstants.personalSpace
    if 0 < len separationVector then
      Vec.add fd (Vec.scale separationForce (nrmW len separationVector))
    else fd
  else fd

/-- Embeds ZombieAI.applyCollisionAvoidance: the player separation fold
(which can mutate the circling timer and, on timeout escape, the wander
target), then the zombie separation fold, then the unit cap. -/
def applyCollisionAvoidance (env : Env) (z : ZombieSelf) (len : Vec → ℚ)
    (rndEsc : Vec) (s : ZombieAIRec) (baseDirection : Vec) : Vec × ZombieAIRec :=
  let ents := getNearbyEntities env z
  let pr := ents.1.foldl (playerSepStep env z len rndEsc) (baseDirection, s)
  let d2 := ents.2.foldl (zombieSepStep z len) pr.1
  if 1 < len d2 then (nrmW len d2, pr.2) else (d2, pr.2)

/-- Embeds ZombieAI.getCurrentState: with a movement goal, run collision
avoidance on the goal direction and discretize each axis with the 0.1
deadzone; the returned target and flags read the fields after avoidance
ran, as the source object literal does. The possibly mutated record is
returned alongside. -/
def getCurrentState (env : Env) (z : ZombieSelf) (len : Vec → ℚ)
    (rndEsc : Vec) (s : ZombieAIRec) : AIState × ZombieAIRec :=
  match s.targetPosition with
  | none =>
    (⟨⟨false, false, false, false⟩, none,
      decide (s.state = .Attacking) && s.target.isSome, s.state⟩, s)
  | some tp =>
    let pr := applyCollisionAvoidance env z len rndEsc s (Vec.sub tp z.pos)
    let dir := pr.1
    let s1 := pr.2
    let movement : AIMovement :=
      ⟨decide (dir.y < -(1 / 10)), decide (1 / 10 < dir.y),
        decide (dir.x < -(1 / 10)), decide (1 / 10 < dir.x)⟩
    (⟨movement, s1.targetPosition,
      decide (s1.state = .Attacking) && s1.target.isSome, s1.state⟩, s1)

lemma setState_state (env : Env) (s : ZombieAIRec) (st : ZombieAIState)
    (t : Option Player) : (setState env s st t).state = st := by
  cases t <;> rfl

lemma setWanderTarget_state (zpos r : Vec) (s : ZombieAIRec) :
    (setWanderTarget zpos r s).state = s.state := rfl

lemma findGroupTarget_state (env : Env) (z : ZombieSelf) (rnd : Rnd)
    (s : ZombieAIRec) : (findGroupTarget env z rnd s).state = s.state := by
  simp only [findGroupTarget]
  split <;> rfl

/-- C4: the Attacking state is only ever entered from the Hunting state.
Every assignment of a new state happens in updateState, coordinateWithPack
or onTakeDamage; for each of them, producing the Attacking state forces
the prior state to have been Hunting (updateState, where the attack-range
branch of the Hunting case is the sole entry) or already Attacking
(self-loop); in particular an Idle agent never moves to Attacking in one
state evaluation, for any tick environment, damage source or random
inputs. -/
theorem claim_C4 :
    ∀ (env : Env) (z : ZombieSelf) (rnd : Rnd) (len : Vec → ℚ)
      (src : Player) (s : ZombieAIRec),
      ((updateState env z rnd len s).state = .Attacking →
        s.state = .Hunting ∨ s.state = .Attacking)
      ∧ ((coordinateWithPack env z s).state = .Attacking → s.state = .Attacking)
      ∧ ((onTakeDamage env z len src s).state = .Attacking → s.state = .Attacking)
      ∧ (s.state = .Idle → (updateState env z rnd len s).state ≠ .Attacking) := by
  intro env z rnd len src s
  have hUpd : (updateState env z rnd len s).state = .Attacking →
      s.state = .Hunting ∨ s.state = .Attacking := by
    intro h
    cases hs : s.state
    case Hunting => exact Or.inl rfl
    case Attacking => exact Or.inr rfl
    all_goals exfalso
    all_goals simp only [updateState, hs] at h
    all_goals repeat' split at h
    all_goals
      simp_all [setState_state, setWanderTarget, findGroupTarget_state]
  refine ⟨hUpd, ?_, ?_, ?_⟩
  · intro h
    simp only [coordinateWithPack] at h
    repeat' split at h
    all_goals first
      | exact h
      | (rw [setState_state] at h; exact absurd h (by decide))
  · intro h
    simp only [onTakeDamage] at h
    repeat' split at h
    all_goals first
      | exact h
      | (rw [setState_state] at h; exact absurd h (by decide))
  · intro hs h
    rcases hUpd h with h1 | h1 <;> rw [hs] at h1 <;> exact absurd h1 (by decide)

/-- Witness for C4: the no-direct-Idle-to-Attacking conjunct applied to a
concrete Idle agent in an empty world. -/
theorem claim_C4_witness :
    (updateState ⟨0, [], [], fun _ => false⟩
        ⟨⟨0, 0⟩, ⟨"basic_zombie", 5 / 2, 15, true⟩, 1, 120, 120⟩
        ⟨⟨0, 0⟩, ⟨0, 0⟩, ⟨0, 0⟩, 0, ⟨0, 0⟩⟩ (fun _ => 0)
        ⟨.Idle, none, none, none, 0, 0, none, none, 0, 0, 0, ⟨0, 0⟩⟩).state
      ≠ .Attacking :=
  (claim_C4 ⟨0, [], [], fun _ => false⟩
    ⟨⟨0, 0⟩, ⟨"basic_zombie", 5 / 2, 15, true⟩, 1, 120, 120⟩
    ⟨⟨0, 0⟩, ⟨0, 0⟩, ⟨0, 0⟩, 0, ⟨0, 0⟩⟩ (fun _ => 0) ⟨1, ⟨0, 0⟩⟩
    ⟨.Idle, none, none, none, 0, 0, none, none, 0, 0, 0, ⟨0, 0⟩⟩).2.2.2 rfl

/-- C5: canDetectPlayer holds exactly when the distance to the enemy is
within the evolution-scaled detection range (stated on exact squared
distances), isInAttackRange exactly when within the unscaled attack range,
the accessor equations of zombiePlayer.ts hold, and the asymmetry is
preserved: the attack test is invariant under any change of the evolution
multiplier while the detection radius scales with it. -/
theorem claim_C5 :
    ∀ (z : ZombieSelf) (p : Player),
      (canDetectPlayer z p = true ↔
        Vec.distSq z.pos p.pos ≤
          (z.typ.detectionRange * z.evolutionMultiplier)
            * (z.typ.detectionRange * z.evolutionMultiplier))
      ∧ (isInAttackRange z p = true ↔
          Vec.distSq z.pos p.pos ≤ z.typ.attackRange * z.typ.attackRange)
      ∧ z.getDetectionRange = z.typ.detectionRange * z.evolutionMultiplier
      ∧ z.getAttackRange = z.typ.attackRange
      ∧ (∀ m : ℚ, isInAttackRange { z with evolutionMultiplier := m } p
            = isInAttackRange z p)
      ∧ (∀ m : ℚ, ZombieSelf.getDetectionRange { z with evolutionMultiplier := m }
            = z.typ.detectionRange * m) := by
  intro z p
  refine ⟨?_, ?_, rfl, rfl, ?_, ?_⟩ <;>
    simp [canDetectPlayer, isInAttackRange, distLE,
      ZombieSelf.getDetectionRange, ZombieSelf.getAttackRange]

lemma axis_exclusive (a : ℚ) :
    (decide (a < -(1 / 10)) && decide ((1 / 10 : ℚ) < a)) = false := by
  rcases lt_or_le a (-(1 / 10)) with h | h
  · have hn : ¬ (1 / 10 : ℚ) < a := by linarith
    rw [decide_eq_false hn, Bool.and_false]
  · rw [decide_eq_false (not_lt.mpr h), Bool.false_and]

/-- C10: the movement booleans returned by getCurrentState are
axis-exclusive: each axis is discretized against the single signed 0.1
deadzone, so left and right (and up and down) are never both set, in every
state, environment, length oracle and random input. -/
theorem claim_C10 :
    ∀ (env : Env) (z : ZombieSelf) (len : Vec → ℚ) (rndEsc : Vec)
      (s : ZombieAIRec),
      ((getCurrentState env z len rndEsc s).1.movement.left
        && (getCurrentState env z len rndEsc s).1.movement.right) = false
      ∧ ((getCurrentState env z len rndEsc s).1.movement.up
        && (getCurrentState env z len rndEsc s).1.movement.down) = false := by
  intro env z len rndEsc s
  rcases htp : s.targetPosition with _ | tp <;>
    simp only [getCurrentState, htp]
  · simp
  · exact ⟨axis_exclusive _, axis_exclusive _⟩

/-- C6: damage while the health ratio is below the 0.2 flee threshold
forces the Fleeing state with the movement goal 20 units from the current
position directly away from the damage source (exactly 20 units whenever
the length oracle is correct on the away vector); and a Fleeing-state
evaluation with the health ratio above the threshold returns to Idle. -/
theorem claim_C6 :
    (∀ (env : Env) (z : ZombieSelf) (len : Vec → ℚ) (src : Player)
        (s : ZombieAIRec),
      z.health / z.maxHealth < ZombieAIConstants.fleeHealthThreshold →
      0 < len (Vec.sub z.pos src.pos) →
      (onTakeDamage env z len src s).state = .Fleeing
      ∧ (onTakeDamage env z len src s).targetPosition =
          some (Vec.add z.pos (Vec.scale 20 (nrmW len (Vec.sub z.pos src.pos))))
      ∧ (len (Vec.sub z.pos src.pos) * len (Vec.sub z.pos src.pos)
            = Vec.distSq z.pos src.pos →
          Vec.distSq
            (Vec.add z.pos (Vec.scale 20 (nrmW len (Vec.sub z.pos src.pos))))
            z.pos = 400))
    ∧ (∀ (env : Env) (z : ZombieSelf) (rnd : Rnd) (len : Vec → ℚ)
        (s : ZombieAIRec),
        s.state = .Fleeing →
        ZombieAIConstants.fleeHealthThreshold < z.health / z.maxHealth →
        (updateState env z rnd len s).state = .Idle) := by
  constructor
  · intro env z len src s hflee hpos
    refine ⟨?_, ?_, ?_⟩
    · simp only [onTakeDamage]
      rw [if_pos hflee]
      simp [setState_state]
    · simp only [onTakeDamage]
      rw [if_pos hflee]
    · intro hsq
      have hL : len (Vec.sub z.pos src.pos) ≠ 0 := ne_of_gt hpos
      simp only [Vec.distSq, Vec.add, Vec.scale, nrmW, Vec.sub] at hsq hL ⊢
      field_simp
      linear_combination (-400 : ℚ) * hsq
  · intro env z rnd len s hs hratio
    simp only [updateState, hs]
    rw [if_pos hratio, setState_state]

/-- Witness for C6: a zombie at (3, 4) damaged from the origin with health
ratio 0.1: the away vector has rational length 5, the state becomes
Fleeing, the goal is (15, 20), exactly 20 units from the zombie; and a
Fleeing agent with ratio 0.8 returns to Idle. -/
theorem claim_C6_witness :
    ((1 : ℚ) / 10 < 1 / 5
      ∧ (onTakeDamage ⟨0, [], [], fun _ => false⟩
          ⟨⟨3, 4⟩, ⟨"basic_zombie", 5 / 2, 15, true⟩, 1, 1, 10⟩
          (fun _ => 5) ⟨1, ⟨0, 0⟩⟩
          ⟨.Idle, none, none, none, 0, 0, none, none, 0, 0, 0, ⟨0, 0⟩⟩).state
        = .Fleeing
      ∧ Vec.distSq
          (Vec.add ⟨3, 4⟩ (Vec.scale 20
            (nrmW (fun _ => 5) (Vec.sub ⟨3, 4⟩ ⟨0, 0⟩))))
          ⟨3, 4⟩ = 400)
    ∧ (updateState ⟨0, [], [], fun _ => false⟩
        ⟨⟨0, 0⟩, ⟨"basic_zombie", 5 / 2, 15, true⟩, 1, 8, 10⟩
        ⟨⟨0, 0⟩, ⟨0, 0⟩, ⟨0, 0⟩, 0, ⟨0, 0⟩⟩ (fun _ => 0)
        ⟨.Fleeing, none, none, none, 0, 0, none, none, 0, 0, 0, ⟨0, 0⟩⟩).state
      = .Idle := by
  constructor
  · refine ⟨by norm_num, ?_, ?_⟩
    · exact (claim_C6.1 ⟨0, [], [], fun _ => false⟩
        ⟨⟨3, 4⟩, ⟨"basic_zombie", 5 / 2, 15, true⟩, 1, 1, 10⟩
        (fun _ => 5) ⟨1, ⟨0, 0⟩⟩
        ⟨.Idle, none, none, none, 0, 0, none, none, 0, 0, 0, ⟨0, 0⟩⟩
        (by norm_num [ZombieAIConstants.fleeHealthThreshold])
        (by norm_num)).1
    · exact (claim_C6.1 ⟨0, [], [], fun _ => false⟩
        ⟨⟨3, 4⟩, ⟨"basic_zombie", 5 / 2, 15, true⟩, 1, 1, 10⟩
        (fun _ => 5) ⟨1, ⟨0, 0⟩⟩
        ⟨.Idle, none, none, none, 0, 0, none, none, 0, 0, 0, ⟨0, 0⟩⟩
        (by norm_num [ZombieAIConstants.fleeHealthThreshold])
        (by norm_num)).2.2 (by norm_num [Vec.distSq, Vec.sub])
  · exact claim_C6.2 ⟨0, [], [], fun _ => false⟩
      ⟨⟨0, 0⟩, ⟨"basic_zombie", 5 / 2, 15, true⟩, 1, 8, 10⟩
      ⟨⟨0, 0⟩, ⟨0, 0⟩, ⟨0, 0⟩, 0, ⟨0, 0⟩⟩ (fun _ => 0)
      ⟨.Fleeing, none, none, none, 0, 0, none, none, 0, 0, 0, ⟨0, 0⟩⟩
      rfl (by norm_num [ZombieAIConstants.fleeHealthThreshold])

/-- C9: evaluation of the code at a failing input for the claimed
state-change cooldown. The source setState applies every transition
unconditionally: an Idle agent alone in the world transitions to Wandering
at time 0, and the same agent transitions again to Hunting at time 30 when
a player appears within detection range; two consecutive state changes
forced by neither damage event lie 30 ms apart, far below the claimed
500 ms cooldown window. -/
theorem claim_C9 :
    (⟨.Idle, none, none, none, 0, 0, none, none, 0, 0, 0, ⟨0, 0⟩⟩
        : ZombieAIRec).state = .Idle
    ∧ (update ⟨0, [], [], fun _ => false⟩
        ⟨⟨0, 0⟩, ⟨"fast_runner", 2, 20, false⟩, 1, 80, 80⟩
        ⟨⟨0, 0⟩, ⟨0, 0⟩, ⟨0, 0⟩, 0, ⟨0, 0⟩⟩ (fun _ => 0)
        ⟨.Idle, none, none, none, 0, 0, none, none, 0, 0, 0, ⟨0, 0⟩⟩).state
      = .Wandering
    ∧ (update ⟨30, [⟨1, ⟨5, 0⟩⟩], [], fun _ => false⟩
        ⟨⟨0, 0⟩, ⟨"fast_runner", 2, 20, false⟩, 1, 80, 80⟩
        ⟨⟨0, 0⟩, ⟨0, 0⟩, ⟨0, 0⟩, 0, ⟨0, 0⟩⟩ (fun _ => 0)
        (update ⟨0, [], [], fun _ => false⟩
          ⟨⟨0, 0⟩, ⟨"fast_runner", 2, 20, false⟩, 1, 80, 80⟩
          ⟨⟨0, 0⟩, ⟨0, 0⟩, ⟨0, 0⟩, 0, ⟨0, 0⟩⟩ (fun _ => 0)
          ⟨.Idle, none, none, none, 0, 0, none, none, 0, 0, 0, ⟨0, 0⟩⟩)).state
      = .Hunting
    ∧ (30 : ℚ) - 0 < 500 := by
  refine ⟨rfl, ?_, ?_, by norm_num⟩ <;>
    norm_num [update, checkIfStuck, updatePathfinding, updateState,
      findNearestPlayer, findNearestAux, setState, setWanderTarget,
      findGroupTarget, coordinateWithPack, canDetectPlayer, isInAttackRange,
      distLE, distLT, Vec.distSq, ZombieSelf.getDetectionRange,
      ZombieSelf.getAttackRange, ZombieAIConstants.pathfindingUpdateInterval,
      ZombieAIConstants.stuckThreshold, ZombieAIConstants.stuckTimeout]

lemma setState_target (env : Env) (s : ZombieAIRec) (st : ZombieAIState)
    (t : Option Player) : (setState env s st t).target = t := by
  cases t <;> rfl

lemma setState_targetPos (env : Env) (s : ZombieAIRec) (st : ZombieAIState)
    (T : Player) : (setState env s st (some T)).targetPosition = some T.pos := rfl

lemma findNearestPlayer_single (zpos : Vec) (p : Player) :
    findNearestPlayer zpos [p] = some p := rfl

/-- C7 (amended): a pack agent whose pathfinding recompute runs (which
requires a current targetPosition, since the recompute returns at once
without one) and that has no target or switched target over 1 s ago adopts
the target of the first live Hunting neighbor within groupRadius and
transitions to Hunting during that recompute; the adopted Hunting state
survives the same-tick behavior-state evaluation, so the agent ends the
tick Hunting with the adopted target, when the agent can itself detect its
nearest enemy and that enemy is outside attack range -- without
detectability the state evaluation leaves Hunting again in the same tick
(see the counterexample). -/
theorem claim_C7 :
    (∀ (env : Env) (z : ZombieSelf) (s : ZombieAIRec) (n : ZombieNb) (T : Player),
      z.typ.packBehavior = true →
      (s.target = none ∨ 1000 < env.now - s.lastTargetSwitch) →
      (env.zombies.filter
          (fun m => !m.dead && distLE z.pos m.pos ZombieAIConstants.groupRadius)).find?
            (fun m => m.aiTarget.isSome && decide (m.aiState = .Hunting)) = some n →
      n.aiTarget = some T →
      (coordinateWithPack env z s).state = .Hunting
      ∧ (coordinateWithPack env z s).target = some T
      ∧ (coordinateWithPack env z s).targetPosition = some T.pos)
    ∧ (∀ (env : Env) (z : ZombieSelf) (rnd : Rnd) (len : Vec → ℚ)
        (s : ZombieAIRec) (n : ZombieNb) (T : Player) (tp : Vec),
        z.typ.packBehavior = true →
        s.target = none →
        s.targetPosition = some tp →
        distLT z.pos s.lastPosition ZombieAIConstants.stuckThreshold = false →
        ZombieAIConstants.pathfindingUpdateInterval < env.now - s.lastPathUpdate →
        env.players = [T] →
        (env.zombies.filter
            (fun m => !m.dead && distLE z.pos m.pos ZombieAIConstants.groupRadius)).find?
              (fun m => m.aiTarget.isSome && decide (m.aiState = .Hunting)) = some n →
        n.aiTarget = some T →
        canDetectPlayer z T = true →
        isInAttackRange z T = false →
        (update env z rnd len s).state = .Hunting
        ∧ (update env z rnd len s).target = some T) := by
  have hA : ∀ (env : Env) (z : ZombieSelf) (s : ZombieAIRec) (n : ZombieNb) (T : Player),
      z.typ.packBehavior = true →
      (s.target = none ∨ 1000 < env.now - s.lastTargetSwitch) →
      (env.zombies.filter
          (fun m => !m.dead && distLE z.pos m.pos ZombieAIConstants.groupRadius)).find?
            (fun m => m.aiTarget.isSome && decide (m.aiState = .Hunting)) = some n →
      n.aiTarget = some T →
      (coordinateWithPack env z s).state = .Hunting
      ∧ (coordinateWithPack env z s).target = some T
      ∧ (coordinateWithPack env z s).targetPosition = some T.pos := by
    intro env z s n T hpack hcond hfind htgt
    have hguard : (s.target.isNone
        || decide (1000 < env.now - s.lastTargetSwitch)) = true := by
      rcases hcond with h | h
      · simp [h]
      · simp [h]
    have hcw : coordinateWithPack env z s = setState env s .Hunting (some T) := by
      rcases hnil : env.zombies.filter
          (fun m => !m.dead && distLE z.pos m.pos ZombieAIConstants.groupRadius)
        with _ | ⟨hd, tl⟩
      · rw [hnil] at hfind
        simp at hfind
      · rw [hnil] at hfind
        simp only [coordinateWithPack, hpack, Bool.not_true, hnil, hguard,
          List.isEmpty_cons, hfind, htgt]
        rfl
    rw [hcw]
    exact ⟨setState_state env s .Hunting (some T),
      setState_target env s .Hunting (some T),
      setState_targetPos env s .Hunting T⟩
  refine ⟨hA, ?_⟩
  intro env z rnd len s n T tp hpack htgt0 htp hmoved hgate hplayers hfind htgtn hdet hatk
  have hstuck : checkIfStuck env z rnd s = { s with stuckPosition := none } := by
    simp [checkIfStuck, hmoved]
  have hApp := hA env z
    { s with stuckPosition := none, targetPosition := some tp,
             intermediateTarget := some (findPathToTarget env len z.pos tp) }
    n T hpack (Or.inl htgt0) hfind htgtn
  have hup : (updatePathfinding env z rnd len { s with stuckPosition := none }).state = .Hunting
      ∧ (updatePathfinding env z rnd len { s with stuckPosition := none }).target = some T := by
    simp only [updatePathfinding, htp, hpack, if_true]
    constructor
    · split
      · exact hApp.1
      · split
        · exact hApp.1
        · exact hApp.1
    · split
      · exact hApp.2.1
      · split
        · exact hApp.2.1
        · exact hApp.2.1
  have hfin : update env z rnd len s =
      { updateState env z rnd len
          { updatePathfinding env z rnd len { s with stuckPosition := none }
              with lastPathUpdate := env.now }
        with lastPosition := z.pos } := by
    simp only [update, hstuck]
    split
    · rfl
    · rename_i hcon
      exact absurd hgate hcon
  rw [hfin]
  constructor
  · show (updateState env z rnd len _).state = _
    simp [updateState, hup.1, hplayers, findNearestPlayer_single, hdet, hatk]
  · show (updateState env z rnd len _).target = _
    simp [updateState, hup.1, hplayers, findNearestPlayer_single, hdet, hatk]

/-- Counterexample to C7 as stated: a pack agent at the origin, Idle with
no target (last switch 3 s ago, movement goal present, pathfinding gate
firing at time 1000) sits within groupRadius of a live Hunting neighbor
bound to the live target T at (100, 0); during the recompute it adopts T
and becomes Hunting, but T is outside its own detection range (distance
100 versus range 15), so the same-tick state evaluation drops back and the
agent ends the update Idle with no target, not Hunting with T -- falsifying
that it becomes Hunting with T within one pathfinding-interval tick. -/
theorem claim_C7_counterexample :
    ((⟨⟨5, 0⟩, false, .Hunting, some ⟨7, ⟨100, 0⟩⟩⟩ : ZombieNb).aiState = .Hunting
      ∧ distLE ⟨0, 0⟩ ⟨5, 0⟩ ZombieAIConstants.groupRadius = true
      ∧ (1000 : ℚ) < 1000 - (-2000)
      ∧ ZombieAIConstants.pathfindingUpdateInterval < (1000 : ℚ) - 0)
    ∧ (update ⟨1000, [⟨7, ⟨100, 0⟩⟩],
          [⟨⟨5, 0⟩, false, .Hunting, some ⟨7, ⟨100, 0⟩⟩⟩], fun _ => false⟩
        ⟨⟨0, 0⟩, ⟨"basic_zombie", 5 / 2, 15, true⟩, 1, 120, 120⟩
        ⟨⟨0, 0⟩, ⟨0, 0⟩, ⟨0, 0⟩, 0, ⟨0, 0⟩⟩
        (fun v => if v = ⟨1, 0⟩ then 1 else if v = ⟨100, 0⟩ then 100 else 0)
        ⟨.Idle, none, some ⟨1, 0⟩, none, 0, -2000, none, none, 0, 0, 0, ⟨9, 9⟩⟩).state
      = .Idle
    ∧ ¬ ((update ⟨1000, [⟨7, ⟨100, 0⟩⟩],
          [⟨⟨5, 0⟩, false, .Hunting, some ⟨7, ⟨100, 0⟩⟩⟩], fun _ => false⟩
        ⟨⟨0, 0⟩, ⟨"basic_zombie", 5 / 2, 15, true⟩, 1, 120, 120⟩
        ⟨⟨0, 0⟩, ⟨0, 0⟩, ⟨0, 0⟩, 0, ⟨0, 0⟩⟩
        (fun v => if v = ⟨1, 0⟩ then 1 else if v = ⟨100, 0⟩ then 100 else 0)
        ⟨.Idle, none, some ⟨1, 0⟩, none, 0, -2000, none, none, 0, 0, 0, ⟨9, 9⟩⟩).state
      = .Hunting) := by
  refine ⟨⟨rfl, by norm_num [distLE, Vec.distSq, ZombieAIConstants.groupRadius],
    by norm_num, by norm_num [ZombieAIConstants.pathfindingUpdateInterval]⟩, ?_, ?_⟩ <;>
  · norm_num [update, checkIfStuck, updatePathfinding, updateState,
      findNearestPlayer, findNearestAux, setState, setWanderTarget,
      findGroupTarget, coordinateWithPack, findPathToTarget, nrmW,
      canDetectPlayer, isInAttackRange, distLE, distLT, Vec.distSq,
      Vec.add, Vec.sub, Vec.scale, Vec.rotQuarter, min_def,
      ZombieSelf.getDetectionRange, ZombieSelf.getAttackRange,
      ZombieAIConstants.pathfindingUpdateInterval,
      ZombieAIConstants.stuckThreshold, ZombieAIConstants.stuckTimeout,
      ZombieAIConstants.groupRadius]
    try decide

/-- Witness for C7: the amended persistence conjunct applied to the
concrete configuration with the adopted target T at (5, 0), inside the
detection range 15 and outside the attack range 2.5: the agent ends the
tick Hunting with target T. -/
theorem claim_C7_witness :
    (update ⟨1000, [⟨7, ⟨5, 0⟩⟩],
        [⟨⟨5, 0⟩, false, .Hunting, some ⟨7, ⟨5, 0⟩⟩⟩], fun _ => false⟩
      ⟨⟨0, 0⟩, ⟨"basic_zombie", 5 / 2, 15, true⟩, 1, 120, 120⟩
      ⟨⟨0, 0⟩, ⟨0, 0⟩, ⟨0, 0⟩, 0, ⟨0, 0⟩⟩
      (fun v => if v = ⟨1, 0⟩ then 1 else if v = ⟨5, 0⟩ then 5 else 0)
      ⟨.Idle, none, some ⟨1, 0⟩, none, 0, -2000, none, none, 0, 0, 0, ⟨9, 9⟩⟩).state
      = .Hunting
    ∧ (update ⟨1000, [⟨7, ⟨5, 0⟩⟩],
        [⟨⟨5, 0⟩, false, .Hunting, some ⟨7, ⟨5, 0⟩⟩⟩], fun _ => false⟩
      ⟨⟨0, 0⟩, ⟨"basic_zombie", 5 / 2, 15, true⟩, 1, 120, 120⟩
      ⟨⟨0, 0⟩, ⟨0, 0⟩, ⟨0, 0⟩, 0, ⟨0, 0⟩⟩
      (fun v => if v = ⟨1, 0⟩ then 1 else if v = ⟨5, 0⟩ then 5 else 0)
      ⟨.Idle, none, some ⟨1, 0⟩, none, 0, -2000, none, none, 0, 0, 0, ⟨9, 9⟩⟩).target
      = some ⟨7, ⟨5, 0⟩⟩ :=
  claim_C7.2 ⟨1000, [⟨7, ⟨5, 0⟩⟩],
      [⟨⟨5, 0⟩, false, .Hunting, some ⟨7, ⟨5, 0⟩⟩⟩], fun _ => false⟩
    ⟨⟨0, 0⟩, ⟨"basic_zombie", 5 / 2, 15, true⟩, 1, 120, 120⟩
    ⟨⟨0, 0⟩, ⟨0, 0⟩, ⟨0, 0⟩, 0, ⟨0, 0⟩⟩
    (fun v => if v = ⟨1, 0⟩ then 1 else if v = ⟨5, 0⟩ then 5 else 0)
    ⟨.Idle, none, some ⟨1, 0⟩, none, 0, -2000, none, none, 0, 0, 0, ⟨9, 9⟩⟩
    ⟨⟨5, 0⟩, false, .Hunting, some ⟨7, ⟨5, 0⟩⟩⟩ ⟨7, ⟨5, 0⟩⟩ ⟨1, 0⟩
    rfl rfl rfl
    (by norm_num [distLT, Vec.distSq, ZombieAIConstants.stuckThreshold])
    (by norm_num [ZombieAIConstants.pathfindingUpdateInterval])
    rfl
    (by norm_num [List.filter, List.find?, distLE, Vec.distSq,
      ZombieAIConstants.groupRadius])
    rfl
    (by norm_num [canDetectPlayer, distLE, Vec.distSq,
      ZombieSelf.getDetectionRange])
    (by norm_num [isInAttackRange, distLE, Vec.distSq,
      ZombieSelf.getAttackRange])

lemma foldl_playerSepStep_far (env : Env) (z : ZombieSelf) (len : Vec → ℚ)
    (rndEsc : Vec) :
    ∀ (ps : List Player) (d : Vec) (s : ZombieAIRec),
      (∀ p ∈ ps,
        ¬ (len (Vec.sub z.pos p.pos) < ZombieAIConstants.separationDistance)) →
      ps.foldl (playerSepStep env z len rndEsc) (d, s) = (d, s) := by
  intro ps
  induction ps with
  | nil => intro d s _; rfl
  | cons p rest ih =>
    intro d s h
    have hp := h p (List.mem_cons_self p rest)
    have hstep : playerSepStep env z len rndEsc (d, s) p = (d, s) := by
      simp [playerSepStep, hp]
    rw [List.foldl_cons, hstep]
    exact ih d s (fun q hq => h q (List.mem_cons_of_mem p hq))

lemma applyCollisionAvoidance_far (env : Env) (z : ZombieSelf) (len : Vec → ℚ)
    (rndA rndB : Vec) (s : ZombieAIRec) (d : Vec)
    (h : ∀ p ∈ env.players,
      ¬ (len (Vec.sub z.pos p.pos) < ZombieAIConstants.separationDistance)) :
    applyCollisionAvoidance env z len rndA s d
      = applyCollisionAvoidance env z len rndB s d
    ∧ (applyCollisionAvoidance env z len rndA s d).2 = s := by
  have hfilter : ∀ p ∈ (getNearbyEntities env z).1,
      ¬ (len (Vec.sub z.pos p.pos) < ZombieAIConstants.separationDistance) := by
    intro p hp
    simp only [getNearbyEntities] at hp
    exact h p (List.mem_of_mem_filter hp)
  have hfA := foldl_playerSepStep_far env z len rndA (getNearbyEntities env z).1
    d s hfilter
  have hfB := foldl_playerSepStep_far env z len rndB (getNearbyEntities env z).1
    d s hfilter
  constructor
  · simp only [applyCollisionAvoidance, hfA, hfB]
  · simp only [applyCollisionAvoidance, hfA]
    split <;> rfl

/-- C8 (amended): getCurrentState is a read-only idempotent snapshot
whenever no player lies within separationDistance of the agent (as
measured by the length oracle): the agent record is returned unchanged and
a second call -- even with a different random escape offset -- returns the
identical result. Without that proviso the claim is false: the
Attacking-state circling logic inside the query mutates the circling timer
and, past the circling timeout, assigns a fresh random wander target (see
the counterexample). -/
theorem claim_C8 :
    ∀ (env : Env) (z : ZombieSelf) (len : Vec → ℚ) (rndA rndB : Vec)
      (s : ZombieAIRec),
      (∀ p ∈ env.players,
        ¬ (len (Vec.sub z.pos p.pos) < ZombieAIConstants.separationDistance)) →
      (getCurrentState env z len rndA s).2 = s
      ∧ (getCurrentState env z len rndB ((getCurrentState env z len rndA s).2)).1
          = (getCurrentState env z len rndA s).1 := by
  intro env z len rndA rndB s h
  rcases htp : s.targetPosition with _ | tp
  · constructor
    · simp [getCurrentState, htp]
    · simp [getCurrentState, htp]
  · have hfar := applyCollisionAvoidance_far env z len rndA rndB s
      (Vec.sub tp z.pos) h
    have hsnd : (getCurrentState env z len rndA s).2 = s := by
      simp only [getCurrentState, htp]
      exact hfar.2
    refine ⟨hsnd, ?_⟩
    rw [hsnd]
    simp only [getCurrentState, htp]
    rw [hfar.1]

/-- Counterexample to C8 as stated: an Attacking agent at the origin with
movement goal (10, 0), circling since time 1, queried at time 6000 with a
player 2 units away (inside separationDistance 3.5 and circlingRadius 4):
the circling timeout escape fires inside getCurrentState, which resets the
circling timer to 0 and overwrites the movement goal with a fresh random
wander target, so the query mutates the agent and is not a read-only
snapshot. The length oracle is exact on both probed vectors, of rational
length. -/
theorem claim_C8_counterexample :
    ¬ ((getCurrentState ⟨6000, [⟨1, ⟨2, 0⟩⟩], [], fun _ => false⟩
        ⟨⟨0, 0⟩, ⟨"basic_zombie", 5 / 2, 15, true⟩, 1, 120, 120⟩
        (fun v => if v = ⟨-2, 0⟩ then 2
          else if v = ⟨338 / 35, 0⟩ then 338 / 35 else 0)
        ⟨5, 0⟩
        ⟨.Attacking, some ⟨1, ⟨2, 0⟩⟩, some ⟨10, 0⟩, none, 0, 0, none, none,
          0, 1, 0, ⟨0, 0⟩⟩).2
      = ⟨.Attacking, some ⟨1, ⟨2, 0⟩⟩, some ⟨10, 0⟩, none, 0, 0, none, none,
          0, 1, 0, ⟨0, 0⟩⟩) := by
  norm_num [getCurrentState, applyCollisionAvoidance, getNearbyEntities,
    playerSepStep, zombieSepStep, getCirclingDirection, setWanderTarget,
    nrmW, Vec.add, Vec.sub, Vec.scale, Vec.lerp, Vec.distSq, distLE, distLT,
    ZombieAIConstants.separationDistance, ZombieAIConstants.circlingRadius,
    ZombieAIConstants.avoidanceForce, ZombieAIConstants.circlingSpeed,
    ZombieAIConstants.personalSpace]

/-- Witness for C8: the amended theorem applied to an Idle agent with a
movement goal and the only player 50 units away, under the constant length
oracle 50, with two different random offsets: the record is unchanged and
the two query results coincide. -/
theorem claim_C8_witness :
    (getCurrentState ⟨0, [⟨1, ⟨50, 0⟩⟩], [], fun _ => false⟩
        ⟨⟨0, 0⟩, ⟨"basic_zombie", 5 / 2, 15, true⟩, 1, 120, 120⟩
        (fun _ => 50) ⟨1, 1⟩
        ⟨.Idle, none, some ⟨3, 3⟩, none, 0, 0, none, none, 0, 0, 0, ⟨0, 0⟩⟩).2
      = ⟨.Idle, none, some ⟨3, 3⟩, none, 0, 0, none, none, 0, 0, 0, ⟨0, 0⟩⟩
    ∧ (getCurrentState ⟨0, [⟨1, ⟨50, 0⟩⟩], [], fun _ => false⟩
        ⟨⟨0, 0⟩, ⟨"basic_zombie", 5 / 2, 15, true⟩, 1, 120, 120⟩
        (fun _ => 50) ⟨2, 2⟩
        ((getCurrentState ⟨0, [⟨1, ⟨50, 0⟩⟩], [], fun _ => false⟩
          ⟨⟨0, 0⟩, ⟨"basic_zombie", 5 / 2, 15, true⟩, 1, 120, 120⟩
          (fun _ => 50) ⟨1, 1⟩
          ⟨.Idle, none, some ⟨3, 3⟩, none, 0, 0, none, none, 0, 0, 0, ⟨0, 0⟩⟩).2)).1
      = (getCurrentState ⟨0, [⟨1, ⟨50, 0⟩⟩], [], fun _ => false⟩
        ⟨⟨0, 0⟩, ⟨"basic_zombie", 5 / 2, 15, true⟩, 1, 120, 120⟩
        (fun _ => 50) ⟨1, 1⟩
        ⟨.Idle, none, some ⟨3, 3⟩, none, 0, 0, none, none, 0, 0, 0, ⟨0, 0⟩⟩).1 :=
  claim_C8 ⟨0, [⟨1, ⟨50, 0⟩⟩], [], fun _ => false⟩
    ⟨⟨0, 0⟩, ⟨"basic_zombie", 5 / 2, 15, true⟩, 1, 120, 120⟩
    (fun _ => 50) ⟨1, 1⟩ ⟨2, 2⟩
    ⟨.Idle, none, some ⟨3, 3⟩, none, 0, 0, none, none, 0, 0, 0, ⟨0, 0⟩⟩
    (by intro p hp; norm_num [ZombieAIConstants.separationDistance])

end SuroiZombie
